import Mathlib

/-!
Verification of the discrete multi-fidelity Bayesian-optimization tutorial
(`src/tutorials/discrete_multi_fidelity_bo.ipynb`).

The notebook orchestrates library calls: it draws initial data, fits a GP
surrogate, optimizes a cost-aware knowledge-gradient (MFKG) acquisition over a
mixed discrete/continuous domain for a small number of iterations while
accumulating evaluation cost, then recommends a final point by optimizing the
posterior mean at the target fidelity, and finally repeats the loop with an
expected-improvement (EI) baseline.

Embedding choices: tensors of shape (n, 7) / (n, 1) become lists of rows, each
row a list of rationals; scalars become rationals.  The stochastic and
library-internal operations (torch.rand, torch.randint, GP fitting, acquisition
optimization, the synthetic AugmentedHartmann objective) are oracle inputs: the
acquisition optimizers are modelled by the candidate batches they return
(constrained, where a claim needs it, by the contracts the notebook relies on),
the objective by an arbitrary function `problem : Point → ℚ`.  Everything the
notebook itself computes — concatenation of training tensors, the affine cost
sum, the incumbent `train_obj.max()`, the fixed-feature completion of
candidates, the accumulation of `cumulative_cost` — is embedded literally.
-/

namespace DiscreteMFBO

/-- A row of the training-input tensor: 6 design coordinates plus, at index 6,
the fidelity coordinate. -/
abbrev Point := List ℚ

/-- Cell 4: `fidelities = torch.tensor([0.5, 0.75, 1.0])`, the discrete
fidelity levels. -/
def fidelities : List ℚ := [1/2, 3/4, 1]

/-- Fidelity lookup `fidelities[i]` for an index drawn by
`torch.randint(3, (n,1))`. -/
def fidAt (i : Fin 3) : ℚ := fidelities.getD i.val 0

/-- Modelled from the spec: `AffineFidelityCostModel(fidelity_weights={6: 1.0},
fixed_cost=5.0)` — the class lives in the library part of the repository,
outside `src/`; the spec and the notebook text state the evaluation cost of a
point is the affine form `5.0 + s` where `s` is the fidelity (7th coordinate).
-/
def cost_model (x : Point) : ℚ := 5 + x.getD 6 0

/-- The per-batch cost `cost_model(candidates).sum()` computed in
`optimize_mfkg_and_get_observation` and `optimize_ei_and_get_observation`. -/
def batchCost (cands : List Point) : ℚ := (cands.map cost_model).sum

/-- Cell 6, `generate_initial_data(n)`: the random draws are oracle inputs
(`designs` for `torch.rand(n, 6)`, `fids` for `torch.randint(3, (n,1))`); the
function concatenates each design with its fidelity
(`torch.cat((train_x, train_f), dim=1)`) and evaluates the objective, adding an
output dimension (`problem(train_x_full).unsqueeze(-1)`). -/
def generate_initial_data (designs : List (List ℚ)) (fids : List (Fin 3))
    (problem : Point → ℚ) : List Point × List (List ℚ) :=
  let train_x_full := (designs.zip fids).map (fun p => p.1 ++ [fidAt p.2])
  let train_obj := train_x_full.map (fun x => [problem x])
  (train_x_full, train_obj)

/-- Modelled from the spec: `FixedFeatureAcquisitionFunction._construct_X_full`
with `d=7, columns=[6], values=[1]` (library code outside `src/`) completes a
6-dimensional design point to the full 7-dimensional input by appending the
fixed fidelity value 1.0 as the 7th coordinate. -/
def constructXFull (d : List ℚ) : Point := d ++ [1]

/-- Cell 16, `get_recommendation`: the inner `optimize_acqf` over
`bounds[:,:-1]` (posterior mean at the target fidelity) is an oracle producing
the 6-dimensional `final_rec`; the notebook then applies
`rec_acqf._construct_X_full(final_rec)`. -/
def get_recommendation (rec_design : List ℚ) : Point := constructXFull rec_design

/-- The running state of the BO loop of cell 14: the concatenated training
tensors, the cumulative cost, and the training data on which the most recently
fitted surrogate model was trained (`initialize_model` is called on the current
`train_x, train_obj`, so a fitted model is identified by its training data). -/
structure LoopState where
  train_x : List Point
  train_obj : List (List ℚ)
  cumulative_cost : ℚ
  model : List Point × List (List ℚ)

/-- Cell 10, `optimize_mfkg_and_get_observation`, after the acquisition
optimizer (`gen_one_shot_kg_initial_conditions` + `optimize_acqf_mixed`,
oracle) has produced `candidates`: compute the batch cost, observe new values,
and return `(new_x, new_obj, cost)`. -/
def optimize_mfkg_and_get_observation (problem : Point → ℚ)
    (candidates : List Point) : List Point × List (List ℚ) × ℚ :=
  let cost := batchCost candidates
  let new_x := candidates
  let new_obj := new_x.map (fun x => [problem x])
  (new_x, new_obj, cost)

/-- One iteration of the MFKG BO loop (cell 14): fit a model on the current
training data, optimize the acquisition (the returned batch is the oracle input
`candidates`), append the batch and its observations, and accumulate cost. -/
def kgIter (problem : Point → ℚ) (candidates : List Point) (s : LoopState) :
    LoopState :=
  let fitted := (s.train_x, s.train_obj)
  let r := optimize_mfkg_and_get_observation problem candidates
  { train_x := s.train_x ++ r.1
    train_obj := s.train_obj ++ r.2.1
    cumulative_cost := s.cumulative_cost + r.2.2
    model := fitted }

/-- The MFKG BO loop of cell 14, run for `n` iterations; `candAt i` is the
candidate batch the acquisition optimizer returns in iteration `i`. -/
def kgLoop (problem : Point → ℚ) (candAt : ℕ → List Point) :
    ℕ → LoopState → LoopState
  | 0, s => s
  | n + 1, s => kgIter problem (candAt n) (kgLoop problem candAt n s)

/-- The state entering the loop: `cumulative_cost = 0.0` (cell 14) and the
initial training data of cell 12; no model has been fitted yet. -/
def initStateKG (td : List Point × List (List ℚ)) : LoopState :=
  { train_x := td.1, train_obj := td.2, cumulative_cost := 0, model := ([], []) }

/-- Maximum of a nonempty list of rationals (`torch.max` over a nonempty
tensor); 0 is a dummy value for the empty list, never reached in the notebook
(the observation tensor always has at least the 16 initial rows). -/
def listMax : List ℚ → ℚ
  | [] => 0
  | x :: xs => xs.foldl max x

/-- The incumbent `train_obj.max()` of cell 20: the maximum entry of the whole
(n, 1) observation tensor, with no filtering by fidelity. -/
def tensorMax (rows : List (List ℚ)) : ℚ := listMax rows.flatten

/-- Select, from paired (input row, observation row) lists, the observations
whose input row has fidelity coordinate equal to the target fidelity 1.0. -/
def rowsAtTarget : List (Point × List ℚ) → List ℚ
  | [] => []
  | p :: ps =>
      if p.1.getD 6 0 = 1 then p.2.getD 0 0 :: rowsAtTarget ps
      else rowsAtTarget ps

/-- The maximum observation among rows of the training set whose fidelity
coordinate equals the target fidelity 1.0 — what `best_f` would be if the
incumbent were restricted to target-fidelity observations. -/
def tensorMaxAtTarget (xs : List Point) (obj : List (List ℚ)) : ℚ :=
  listMax (rowsAtTarget (xs.zip obj))

/-- Cell 19, `optimize_ei_and_get_observation`, after the acquisition optimizer
(`optimize_acqf` over `bounds[:,:-1]`, oracle) has produced the 6-dimensional
`candidates`: add the fidelity parameter via `_construct_X_full`, compute the
batch cost, observe new values, and return `(new_x, new_obj, cost)`. -/
def optimize_ei_and_get_observation (problem : Point → ℚ)
    (designCands : List (List ℚ)) : List Point × List (List ℚ) × ℚ :=
  let candidates := designCands.map constructXFull
  let cost := batchCost candidates
  let new_x := candidates
  let new_obj := new_x.map (fun x => [problem x])
  (new_x, new_obj, cost)

/-- The running state of the EI baseline loop of cell 20; `bestFs` records, for
each iteration, the incumbent `best_f=train_obj.max()` passed to
`qExpectedImprovement` via `get_ei`. -/
structure EILoopState where
  train_x : List Point
  train_obj : List (List ℚ)
  cumulative_cost : ℚ
  model : List Point × List (List ℚ)
  bestFs : List ℚ

/-- One iteration of the EI baseline loop (cell 20): fit a model on the current
training data, build the EI acquisition with `best_f=train_obj.max()`, optimize
it (the returned 6-dimensional batch is the oracle input `designCands`), append
the completed batch and its observations, and accumulate cost. -/
def eiIter (problem : Point → ℚ) (designCands : List (List ℚ))
    (s : EILoopState) : EILoopState :=
  let fitted := (s.train_x, s.train_obj)
  let best_f := tensorMax s.train_obj
  let r := optimize_ei_and_get_observation problem designCands
  { train_x := s.train_x ++ r.1
    train_obj := s.train_obj ++ r.2.1
    cumulative_cost := s.cumulative_cost + r.2.2
    model := fitted
    bestFs := s.bestFs ++ [best_f] }

/-- The EI baseline loop of cell 20, run for `n` iterations; `designAt i` is
the 6-dimensional candidate batch the acquisition optimizer returns in
iteration `i`. -/
def eiLoop (problem : Point → ℚ) (designAt : ℕ → List (List ℚ)) :
    ℕ → EILoopState → EILoopState
  | 0, s => s
  | n + 1, s => eiIter problem (designAt n) (eiLoop problem designAt n s)

/-- The state entering the EI loop: `cumulative_cost = 0.0`, fresh initial
training data (cell 20 regenerates it), no model fitted, empty incumbent
trace. -/
def initStateEI (td : List Point × List (List ℚ)) : EILoopState :=
  { train_x := td.1, train_obj := td.2, cumulative_cost := 0
    model := ([], []), bestFs := [] }

/-- Forgetting the incumbent trace turns an EI loop state into a plain loop
state, for comparing the two loops. -/
def toKG (s : EILoopState) : LoopState :=
  { train_x := s.train_x, train_obj := s.train_obj
    cumulative_cost := s.cumulative_cost, model := s.model }

/-! ### Size parameters of the library calls, as functions of `SMOKE_TEST`

Cells 2, 8, 10, 14, 16 and 19 fix the iteration count and the optimizer sizes;
some are switched on `SMOKE_TEST`, others are hardcoded. -/

/-- Cell 14: `N_ITER = 3 if not SMOKE_TEST else 1`. -/
def N_ITER (smoke : Bool) : ℕ := if smoke then 1 else 3

/-- Cell 10: `NUM_RESTARTS = 10 if not SMOKE_TEST else 2`. -/
def NUM_RESTARTS (smoke : Bool) : ℕ := if smoke then 2 else 10

/-- Cell 10: `RAW_SAMPLES = 512 if not SMOKE_TEST else 4`. -/
def RAW_SAMPLES (smoke : Bool) : ℕ := if smoke then 4 else 512

/-- Cell 8, `get_mfkg`: `num_fantasies=128 if not SMOKE_TEST else 2`. -/
def num_fantasies (smoke : Bool) : ℕ := if smoke then 2 else 128

/-- The optimization / sampling call sites of the workflow. -/
inductive CallSite
  /-- the call `optimize_acqf` for `current_value` inside `get_mfkg` (cell 8). -/
  | mfkgCurrentValue
  /-- the call `gen_one_shot_kg_initial_conditions` in
  `optimize_mfkg_and_get_observation` (cell 10). -/
  | kgInitConditions
  /-- the call `optimize_acqf_mixed` in `optimize_mfkg_and_get_observation` (cell 10). -/
  | mfkgCandidates
  /-- the call `optimize_acqf` in `get_recommendation` (cell 16). -/
  | recommendation
  /-- the call `optimize_acqf` in `optimize_ei_and_get_observation` (cell 19). -/
  | eiCandidates
  deriving DecidableEq, Fintype

/-- The `num_restarts` argument at each call site, as written in the source. -/
def numRestartsOf (smoke : Bool) : CallSite → ℕ
  | .mfkgCurrentValue => if smoke then 2 else 10
  | .kgInitConditions => 10
  | .mfkgCandidates => NUM_RESTARTS smoke
  | .recommendation => 10
  | .eiCandidates => 10

/-- The `raw_samples` argument at each call site, as written in the source. -/
def rawSamplesOf (smoke : Bool) : CallSite → ℕ
  | .mfkgCurrentValue => if smoke then 4 else 1024
  | .kgInitConditions => 512
  | .mfkgCandidates => RAW_SAMPLES smoke
  | .recommendation => 512
  | .eiCandidates => 512

/-! ### Structural description of the two runs, for the baseline comparison

Each run (MFKG, cells 12–17; EI baseline, cells 19–21) is described by the
parameters its stages use, read off the source. -/

/-- The stage parameters of one run of the workflow. -/
structure RunConfig where
  /-- whether the acquisition is the knowledge gradient (else EI). -/
  usesKG : Bool
  /-- batch size `q` of the candidate optimization. -/
  q : ℕ
  /-- dimension of the domain over which candidates are optimized: 7 for the
  mixed design+fidelity domain, 6 for design-only with fixed fidelity. -/
  candDomainDim : ℕ
  /-- the fidelity values fixed during candidate optimization
  (`fixed_features_list` values, or the fixed feature of the EI wrapper). -/
  candFixedFidelities : List ℚ
  /-- the `num_restarts` of the candidate optimization when `SMOKE_TEST` is unset. -/
  candRestartsFull : ℕ
  /-- the `num_restarts` of the candidate optimization when `SMOKE_TEST` is set. -/
  candRestartsSmoke : ℕ
  /-- the `raw_samples` of the candidate optimization when `SMOKE_TEST` is unset. -/
  candRawFull : ℕ
  /-- the `raw_samples` of the candidate optimization when `SMOKE_TEST` is set. -/
  candRawSmoke : ℕ
  /-- whether `gen_one_shot_kg_initial_conditions` is used. -/
  usesKGInitConds : Bool
  /-- the `num_restarts` of the recommendation call. -/
  recRestarts : ℕ
  /-- the `raw_samples` of the recommendation call. -/
  recRaw : ℕ
  /-- loop iteration count when `SMOKE_TEST` is unset. -/
  nIterFull : ℕ
  /-- loop iteration count when `SMOKE_TEST` is set. -/
  nIterSmoke : ℕ
  deriving DecidableEq

/-- The MFKG run, cells 10, 12–17: `optimize_acqf_mixed` over the 7-dimensional
mixed domain with `fixed_features_list=[{6:0.5},{6:0.75},{6:1.0}]`, `q=4`,
`num_restarts=NUM_RESTARTS`, `raw_samples=RAW_SAMPLES`, KG-specific initial
conditions, recommendation with `num_restarts=10, raw_samples=512`. -/
def kgRunConfig : RunConfig :=
  { usesKG := true, q := 4, candDomainDim := 7
    candFixedFidelities := [1/2, 3/4, 1]
    candRestartsFull := 10, candRestartsSmoke := 2
    candRawFull := 512, candRawSmoke := 4
    usesKGInitConds := true, recRestarts := 10, recRaw := 512
    nIterFull := 3, nIterSmoke := 1 }

/-- The EI baseline run, cells 19–21: `optimize_acqf` over the 6-dimensional
design domain with the fidelity fixed to 1.0 by the fixed-feature wrapper,
`q=4`, hardcoded `num_restarts=10, raw_samples=512` (not switched on
`SMOKE_TEST`), no KG initial conditions, same recommendation call. -/
def eiRunConfig : RunConfig :=
  { usesKG := false, q := 4, candDomainDim := 6
    candFixedFidelities := [1]
    candRestartsFull := 10, candRestartsSmoke := 10
    candRawFull := 512, candRawSmoke := 512
    usesKGInitConds := false, recRestarts := 10, recRaw := 512
    nIterFull := 3, nIterSmoke := 1 }

/-- Cell 20 re-runs `generate_initial_data(n=16)` before the EI loop: the
baseline regenerates the initial training data (workflow stage 2). -/
def eiPhaseRegeneratesData : Bool := true

/-- Two run configurations agree on everything except the acquisition kind. -/
def SameExceptAcq (a b : RunConfig) : Prop :=
  a.q = b.q ∧ a.candDomainDim = b.candDomainDim ∧
  a.candFixedFidelities = b.candFixedFidelities ∧
  a.candRestartsFull = b.candRestartsFull ∧
  a.candRestartsSmoke = b.candRestartsSmoke ∧
  a.candRawFull = b.candRawFull ∧ a.candRawSmoke = b.candRawSmoke ∧
  a.usesKGInitConds = b.usesKGInitConds ∧
  a.recRestarts = b.recRestarts ∧ a.recRaw = b.recRaw ∧
  a.nIterFull = b.nIterFull ∧ a.nIterSmoke = b.nIterSmoke

instance (a b : RunConfig) : Decidable (SameExceptAcq a b) := by
  unfold SameExceptAcq; infer_instance

/-! ### Error propagation model

The notebook has no `try`/`except`: one loop iteration is the plain sequencing
of the fallible library calls (`fit_gpytorch_model`, the acquisition
construction with its inner optimization, the candidate optimization, the
objective evaluation).  Each call is modelled by its `Except` result. -/

/-- One KG loop iteration with fallible library calls: `fitRes` for
`fit_gpytorch_model(mll)`, `acqRes` for `get_mfkg(model)`, `optRes` for the
candidate optimization inside `optimize_mfkg_and_get_observation`, and `evalF`
for the objective evaluation `problem(new_x)`.  The calls are sequenced exactly
as in cell 14, with no handler anywhere. -/
def kgIterE (ε : Type) (fitRes acqRes : Except ε Unit)
    (optRes : Except ε (List Point)) (evalF : Point → Except ε ℚ)
    (s : LoopState) : Except ε LoopState :=
  fitRes.bind fun _ =>
  acqRes.bind fun _ =>
  optRes.bind fun cands =>
  (cands.mapM evalF).bind fun obs =>
  Except.ok
    { train_x := s.train_x ++ cands
      train_obj := s.train_obj ++ obs.map (fun y => [y])
      cumulative_cost := s.cumulative_cost + batchCost cands
      model := (s.train_x, s.train_obj) }

/-- The loop of cell 14 with fallible iterations: iterations run in order with
no handler between them, so a failed iteration aborts the run. -/
def kgLoopE (ε : Type) (iter : ℕ → LoopState → Except ε LoopState) :
    ℕ → LoopState → Except ε LoopState
  | 0, s => Except.ok s
  | n + 1, s => (kgLoopE ε iter n s).bind (iter n)

/-- A well-formed row of the training-input tensor: 7 entries, the 6 design
coordinates in `[0,1]`, the fidelity coordinate one of the three discrete
levels. -/
def ValidRow (x : Point) : Prop :=
  x.length = 7 ∧ (∀ q ∈ x.take 6, 0 ≤ q ∧ q ≤ 1) ∧
    (x.getD 6 0 = 1/2 ∨ x.getD 6 0 = 3/4 ∨ x.getD 6 0 = 1)

instance (x : Point) : Decidable (ValidRow x) := by
  unfold ValidRow; infer_instance

/-! ### Helper lemmas about the loops -/

lemma kgLoop_cumulative_cost (problem : Point → ℚ) (candAt : ℕ → List Point)
    (s0 : LoopState) : ∀ n : ℕ,
    (kgLoop problem candAt n s0).cumulative_cost =
      s0.cumulative_cost +
        ((List.range n).map (fun i => batchCost (candAt i))).sum := by
  intro n
  induction n with
  | zero => simp [kgLoop]
  | succ n ih =>
      simp [kgLoop, kgIter, optimize_mfkg_and_get_observation, List.range_succ,
        ih, add_assoc]

lemma kgLoop_train_x_succ (problem : Point → ℚ) (candAt : ℕ → List Point)
    (s0 : LoopState) (n : ℕ) :
    (kgLoop problem candAt (n + 1) s0).train_x =
      (kgLoop problem candAt n s0).train_x ++ candAt n := by
  simp [kgLoop, kgIter, optimize_mfkg_and_get_observation]

lemma kgLoop_lengths (problem : Point → ℚ) (candAt : ℕ → List Point)
    (s0 : LoopState) (hq : ∀ i, (candAt i).length = 4) : ∀ n : ℕ,
    (kgLoop problem candAt n s0).train_x.length = s0.train_x.length + 4 * n ∧
    (kgLoop problem candAt n s0).train_obj.length =
      s0.train_obj.length + 4 * n := by
  intro n
  induction n with
  | zero => simp [kgLoop]
  | succ n ih =>
      simp [kgLoop, kgIter, optimize_mfkg_and_get_observation, ih.1, ih.2,
        hq n, Nat.mul_succ]
      omega

lemma kgLoop_rows_valid (problem : Point → ℚ) (candAt : ℕ → List Point)
    (s0 : LoopState) (hs0 : ∀ x ∈ s0.train_x, ValidRow x)
    (hc : ∀ i, ∀ x ∈ candAt i, ValidRow x) : ∀ n : ℕ,
    ∀ x ∈ (kgLoop problem candAt n s0).train_x, ValidRow x := by
  intro n
  induction n with
  | zero => simpa [kgLoop] using hs0
  | succ n ih =>
      intro x hx
      rw [kgLoop_train_x_succ, List.mem_append] at hx
      rcases hx with hx | hx
      · exact ih x hx
      · exact hc n x hx

lemma kgLoop_row_lengths (problem : Point → ℚ) (candAt : ℕ → List Point)
    (s0 : LoopState) (hs0 : ∀ r ∈ s0.train_x, r.length = 7)
    (ho0 : ∀ r ∈ s0.train_obj, r.length = 1)
    (hc : ∀ i, ∀ r ∈ candAt i, r.length = 7) : ∀ n : ℕ,
    (∀ r ∈ (kgLoop problem candAt n s0).train_x, r.length = 7) ∧
    (∀ r ∈ (kgLoop problem candAt n s0).train_obj, r.length = 1) := by
  intro n
  induction n with
  | zero => exact ⟨hs0, ho0⟩
  | succ n ih =>
      constructor
      · intro r hr
        rw [kgLoop_train_x_succ, List.mem_append] at hr
        rcases hr with hr | hr
        · exact ih.1 r hr
        · exact hc n r hr
      · intro r hr
        simp only [kgLoop, kgIter, optimize_mfkg_and_get_observation,
          List.mem_append, List.mem_map] at hr
        rcases hr with hr | ⟨x, _, rfl⟩
        · exact ih.2 r hr
        · rfl

lemma sum_map_const_of {α : Type} (f : α → ℚ) (c : ℚ) :
    ∀ l : List α, (∀ x ∈ l, f x = c) → (l.map f).sum = c * l.length := by
  intro l
  induction l with
  | nil => simp
  | cons a l ih =>
      intro h
      simp [h a (List.mem_cons_self a l), ih (fun x hx => h x (List.mem_cons_of_mem a hx)),
        mul_add]
      ring

lemma rows_of_generate_initial_data (designs : List (List ℚ))
    (fids : List (Fin 3)) (problem : Point → ℚ)
    (hd : ∀ d ∈ designs, d.length = 6 ∧ ∀ q ∈ d, 0 ≤ q ∧ q ≤ 1) :
    ∀ x ∈ (generate_initial_data designs fids problem).1, ValidRow x := by
  intro x hx
  simp only [generate_initial_data, List.mem_map] at hx
  obtain ⟨⟨d, i⟩, hmem, rfl⟩ := hx
  obtain ⟨hdm, -⟩ := List.of_mem_zip hmem
  obtain ⟨hlen, hbnd⟩ := hd d hdm
  dsimp only
  have hfid : ∀ j : Fin 3, fidAt j = 1/2 ∨ fidAt j = 3/4 ∨ fidAt j = 1 := by
    intro j
    fin_cases j
    · exact Or.inl rfl
    · exact Or.inr (Or.inl rfl)
    · exact Or.inr (Or.inr rfl)
  refine ⟨by simp [hlen], ?_, ?_⟩
  · intro q hq
    rw [List.take_append_of_le_length (by omega)] at hq
    exact hbnd q (List.mem_of_mem_take hq)
  · rw [List.getD_append_right _ _ _ _ (by omega), hlen]
    simpa using hfid i

lemma lengths_of_generate_initial_data (designs : List (List ℚ))
    (fids : List (Fin 3)) (problem : Point → ℚ) (n : ℕ)
    (hd : designs.length = n) (hf : fids.length = n) :
    (generate_initial_data designs fids problem).1.length = n ∧
    (generate_initial_data designs fids problem).2.length = n := by
  constructor <;> simp [generate_initial_data, List.length_zip, hd, hf]

lemma eiLoop_bestFs_succ (problem : Point → ℚ) (designAt : ℕ → List (List ℚ))
    (s0 : EILoopState) (n : ℕ) :
    (eiLoop problem designAt (n + 1) s0).bestFs =
      (eiLoop problem designAt n s0).bestFs ++
        [tensorMax (eiLoop problem designAt n s0).train_obj] := by
  simp [eiLoop, eiIter]

lemma eiLoop_bestFs_length (problem : Point → ℚ) (designAt : ℕ → List (List ℚ))
    (s0 : EILoopState) : ∀ n : ℕ,
    (eiLoop problem designAt n s0).bestFs.length = s0.bestFs.length + n := by
  intro n
  induction n with
  | zero => simp [eiLoop]
  | succ n ih => rw [eiLoop_bestFs_succ]; simp [ih]; omega

lemma eiLoop_bestFs_getD (problem : Point → ℚ) (designAt : ℕ → List (List ℚ))
    (s0 : EILoopState) (hb0 : s0.bestFs = []) : ∀ n i : ℕ, i < n →
    (eiLoop problem designAt n s0).bestFs.getD i 0 =
      tensorMax (eiLoop problem designAt i s0).train_obj := by
  intro n
  induction n with
  | zero => omega
  | succ n ih =>
      intro i hi
      rw [eiLoop_bestFs_succ]
      rcases Nat.lt_or_ge i n with h | h
      · rw [List.getD_append _ _ _ _ (by rw [eiLoop_bestFs_length, hb0]; simpa)]
        exact ih i h
      · have hin : i = n := by omega
        subst hin
        rw [List.getD_append_right _ _ _ _
          (by rw [eiLoop_bestFs_length, hb0]; simp)]
        rw [eiLoop_bestFs_length, hb0]
        simp

lemma eiLoop_cumulative_cost (problem : Point → ℚ)
    (designAt : ℕ → List (List ℚ)) (s0 : EILoopState) : ∀ n : ℕ,
    (eiLoop problem designAt n s0).cumulative_cost =
      s0.cumulative_cost +
        ((List.range n).map
          (fun i => batchCost ((designAt i).map constructXFull))).sum := by
  intro n
  induction n with
  | zero => simp [eiLoop]
  | succ n ih =>
      simp [eiLoop, eiIter, optimize_ei_and_get_observation, List.range_succ,
        ih, add_assoc]

lemma cost_of_full_fidelity_candidate (d : List ℚ) (h6 : d.length = 6) :
    cost_model (constructXFull d) = 6 := by
  rw [cost_model, constructXFull, List.getD_append_right _ _ _ _ h6.le, h6]
  norm_num

lemma toKG_eiLoop (problem : Point → ℚ) (designAt : ℕ → List (List ℚ))
    (s0 : EILoopState) : ∀ n : ℕ,
    toKG (eiLoop problem designAt n s0) =
      kgLoop problem (fun i => (designAt i).map constructXFull) n (toKG s0) := by
  intro n
  induction n with
  | zero => rfl
  | succ n ih =>
      simp only [eiLoop, kgLoop, ← ih]
      rfl

lemma row_lengths_of_generate_initial_data (designs : List (List ℚ))
    (fids : List (Fin 3)) (problem : Point → ℚ)
    (hd6 : ∀ d ∈ designs, d.length = 6) :
    (∀ r ∈ (generate_initial_data designs fids problem).1, r.length = 7) ∧
    (∀ r ∈ (generate_initial_data designs fids problem).2, r.length = 1) := by
  constructor
  · intro r hr
    simp only [generate_initial_data, List.mem_map] at hr
    obtain ⟨⟨d, i⟩, hmem, rfl⟩ := hr
    obtain ⟨hdm, -⟩ := List.of_mem_zip hmem
    simp [hd6 d hdm]
  · intro r hr
    simp only [generate_initial_data, List.mem_map] at hr
    obtain ⟨x, -, rfl⟩ := hr
    rfl

/-! ### The claims -/

/-- C1: after the multi-fidelity BO loop, the cumulative evaluation cost
equals the sum, over every candidate batch of every iteration, of the affine
cost `5.0` plus the fidelity value of that candidate (its 7th coordinate). -/
theorem c1_cumulative_cost_is_sum_of_affine_costs (problem : Point → ℚ)
    (candAt : ℕ → List Point) (s0 : LoopState) (n : ℕ)
    (h0 : s0.cumulative_cost = 0) (h4 : ∀ i < n, (candAt i).length = 4) :
    (kgLoop problem candAt n s0).cumulative_cost =
      ((List.range n).map
        (fun i => ((candAt i).map (fun x => 5 + x.getD 6 0)).sum)).sum := by
  rw [kgLoop_cumulative_cost, h0, zero_add]
  rfl

/-- Witness for C1: one iteration with a concrete 4-candidate batch at
fidelities 0.5, 0.75, 1.0, 0.5. -/
theorem c1_witness :
    (kgLoop (fun _ => 0)
      (fun _ => [[0, 0, 0, 0, 0, 0, 1/2], [0, 0, 0, 0, 0, 0, 3/4],
                 [0, 0, 0, 0, 0, 0, 1], [0, 0, 0, 0, 0, 0, 1/2]])
      1 (initStateKG ([], []))).cumulative_cost =
      ((List.range 1).map
        (fun i => (([[0, 0, 0, 0, 0, 0, 1/2], [0, 0, 0, 0, 0, 0, 3/4],
                     [0, 0, 0, 0, 0, 0, 1], [0, 0, 0, 0, 0, 0, 1/2]] :
            List Point).map (fun x => 5 + x.getD 6 0)).sum)).sum :=
  c1_cumulative_cost_is_sum_of_affine_costs (fun _ => 0) _ _ 1 rfl
    (fun _ _ => rfl)

/-- C2: every row of the training-input tensor — in the initial data and after
every loop iteration — has 7 entries, its first 6 coordinates in `[0, 1]` and
its fidelity coordinate in `{0.5, 0.75, 1.0}`, given the contracts of the
library random draw (designs in the unit cube) and of the mixed acquisition
optimizer (candidates within bounds with fidelity from the fixed feature
list). -/
theorem c2_train_x_rows_valid (problem : Point → ℚ) (designs : List (List ℚ))
    (fids : List (Fin 3)) (candAt : ℕ → List Point)
    (hd : ∀ d ∈ designs, d.length = 6 ∧ ∀ q ∈ d, 0 ≤ q ∧ q ≤ 1)
    (hc : ∀ i, ∀ x ∈ candAt i, ValidRow x) (n : ℕ) :
    ∀ x ∈ (kgLoop problem candAt n
        (initStateKG (generate_initial_data designs fids problem))).train_x,
      ValidRow x :=
  kgLoop_rows_valid problem candAt _
    (rows_of_generate_initial_data designs fids problem hd) hc n

/-- Witness for C2: a concrete one-row initial data set and one empty batch;
the initial row is a valid row of the resulting training tensor. -/
theorem c2_witness : ValidRow [0, 0, 0, 0, 0, 0, 3/4] :=
  c2_train_x_rows_valid (fun _ => 0) [[0, 0, 0, 0, 0, 0]] [1] (fun _ => [])
    (by intro d hdm; rw [List.mem_singleton] at hdm; subst hdm
        exact ⟨rfl, by intro q hq; fin_cases hq <;> norm_num⟩)
    (fun _ x hx => absurd hx (List.not_mem_nil x)) 1
    [0, 0, 0, 0, 0, 0, 3/4]
    (by simp [kgLoop, kgIter, optimize_mfkg_and_get_observation, initStateKG,
          generate_initial_data, fidAt, fidelities])

/-- C5: the final recommendation appends the target fidelity: given the
6-dimensional design point produced by optimizing the posterior-mean
acquisition over the design bounds, `get_recommendation` returns a
7-dimensional point whose 7th coordinate is exactly 1.0 and whose first 6
coordinates are that design point. -/
theorem c5_recommendation_at_target_fidelity (d : List ℚ) (h6 : d.length = 6)
    (hb : ∀ q ∈ d, 0 ≤ q ∧ q ≤ 1) :
    (get_recommendation d).length = 7 ∧ (get_recommendation d).getD 6 0 = 1 ∧
      (get_recommendation d).take 6 = d := by
  refine ⟨by simp [get_recommendation, constructXFull, h6], ?_, ?_⟩
  · rw [get_recommendation, constructXFull,
      List.getD_append_right _ _ _ _ h6.le, h6]
    rfl
  · have h := List.take_length d
    rw [h6] at h
    rw [get_recommendation, constructXFull,
      List.take_append_of_le_length h6.ge, h]

/-- Witness for C5: the recommendation built from the concrete design point at
the origin. -/
theorem c5_witness :
    (get_recommendation [0, 0, 0, 0, 0, 0]).length = 7 ∧
      (get_recommendation [0, 0, 0, 0, 0, 0]).getD 6 0 = 1 ∧
      (get_recommendation [0, 0, 0, 0, 0, 0]).take 6 = [0, 0, 0, 0, 0, 0] :=
  c5_recommendation_at_target_fidelity [0, 0, 0, 0, 0, 0] rfl
    (by intro q hq; fin_cases hq <;> norm_num)

/-- C6: shape consistency — after the initial data (16 points) and after each
of the `k` loop iterations (each appending a batch of 4), `train_x` has shape
`(16 + 4k, 7)` and `train_obj` has shape `(16 + 4k, 1)`; in particular the two
tensors always have the same number of rows. -/
theorem c6_shape_consistency (problem : Point → ℚ) (designs : List (List ℚ))
    (fids : List (Fin 3)) (candAt : ℕ → List Point)
    (h16 : designs.length = 16) (hf16 : fids.length = 16)
    (hd6 : ∀ d ∈ designs, d.length = 6)
    (hq : ∀ i, (candAt i).length = 4)
    (h7 : ∀ i, ∀ r ∈ candAt i, r.length = 7) (k : ℕ) :
    (kgLoop problem candAt k
        (initStateKG (generate_initial_data designs fids problem))).train_x.length
        = 16 + 4 * k ∧
    (kgLoop problem candAt k
        (initStateKG (generate_initial_data designs fids problem))).train_obj.length
        = 16 + 4 * k ∧
    (∀ r ∈ (kgLoop problem candAt k
        (initStateKG (generate_initial_data designs fids problem))).train_x,
      r.length = 7) ∧
    (∀ r ∈ (kgLoop problem candAt k
        (initStateKG (generate_initial_data designs fids problem))).train_obj,
      r.length = 1) := by
  have hlen := lengths_of_generate_initial_data designs fids problem 16 h16 hf16
  have hL := kgLoop_lengths problem candAt
    (initStateKG (generate_initial_data designs fids problem)) hq k
  have hrows := row_lengths_of_generate_initial_data designs fids problem hd6
  have hR := kgLoop_row_lengths problem candAt
    (initStateKG (generate_initial_data designs fids problem)) hrows.1 hrows.2
    h7 k
  exact ⟨by rw [hL.1]; simp [initStateKG, hlen.1],
    by rw [hL.2]; simp [initStateKG, hlen.2], hR.1, hR.2⟩

/-- Witness for C6: 16 concrete zero design points, constant fidelity index,
constant 4-candidate batches, after one iteration. -/
theorem c6_witness :
    (kgLoop (fun _ => 0) (fun _ => List.replicate 4 (List.replicate 7 0)) 1
        (initStateKG (generate_initial_data
          (List.replicate 16 (List.replicate 6 0)) (List.replicate 16 1)
          (fun _ => 0)))).train_x.length = 16 + 4 * 1 ∧
    (kgLoop (fun _ => 0) (fun _ => List.replicate 4 (List.replicate 7 0)) 1
        (initStateKG (generate_initial_data
          (List.replicate 16 (List.replicate 6 0)) (List.replicate 16 1)
          (fun _ => 0)))).train_obj.length = 16 + 4 * 1 ∧
    (∀ r ∈ (kgLoop (fun _ => 0)
        (fun _ => List.replicate 4 (List.replicate 7 0)) 1
        (initStateKG (generate_initial_data
          (List.replicate 16 (List.replicate 6 0)) (List.replicate 16 1)
          (fun _ => 0)))).train_x, r.length = 7) ∧
    (∀ r ∈ (kgLoop (fun _ => 0)
        (fun _ => List.replicate 4 (List.replicate 7 0)) 1
        (initStateKG (generate_initial_data
          (List.replicate 16 (List.replicate 6 0)) (List.replicate 16 1)
          (fun _ => 0)))).train_obj, r.length = 1) :=
  c6_shape_consistency (fun _ => 0) (List.replicate 16 (List.replicate 6 0))
    (List.replicate 16 1) (fun _ => List.replicate 4 (List.replicate 7 0))
    rfl rfl
    (by intro d hdm; rw [List.eq_of_mem_replicate hdm]; rfl)
    (fun _ => rfl)
    (by intro i r hr; rw [List.eq_of_mem_replicate hr]; rfl) 1

/-- C8: the final recommendation is computed from a stale model — after `n+1`
iterations, the last fitted model (the one `get_recommendation` receives) was
trained on the data as it stood before the final batch was appended, so the
final batch of 4 candidates and observations never enters its training set. -/
theorem c8_recommendation_uses_stale_model (problem : Point → ℚ)
    (candAt : ℕ → List Point) (s0 : LoopState) (n : ℕ)
    (hq : (candAt n).length = 4) :
    (kgLoop problem candAt (n + 1) s0).model =
      ((kgLoop problem candAt n s0).train_x,
       (kgLoop problem candAt n s0).train_obj) ∧
    (kgLoop problem candAt (n + 1) s0).train_x =
      (kgLoop problem candAt n s0).train_x ++ candAt n ∧
    (kgLoop problem candAt n s0).train_x.length + 4 =
      (kgLoop problem candAt (n + 1) s0).train_x.length := by
  refine ⟨rfl, kgLoop_train_x_succ problem candAt s0 n, ?_⟩
  rw [kgLoop_train_x_succ, List.length_append, hq]

/-- Witness for C8: one iteration with a concrete 4-candidate batch. -/
theorem c8_witness :
    (kgLoop (fun _ => 0) (fun _ => List.replicate 4 (List.replicate 7 0))
        (0 + 1) (initStateKG ([], []))).model =
      ((kgLoop (fun _ => 0) (fun _ => List.replicate 4 (List.replicate 7 0)) 0
          (initStateKG ([], []))).train_x,
       (kgLoop (fun _ => 0) (fun _ => List.replicate 4 (List.replicate 7 0)) 0
          (initStateKG ([], []))).train_obj) ∧
    (kgLoop (fun _ => 0) (fun _ => List.replicate 4 (List.replicate 7 0))
        (0 + 1) (initStateKG ([], []))).train_x =
      (kgLoop (fun _ => 0) (fun _ => List.replicate 4 (List.replicate 7 0)) 0
          (initStateKG ([], []))).train_x ++
        List.replicate 4 (List.replicate 7 0) ∧
    (kgLoop (fun _ => 0) (fun _ => List.replicate 4 (List.replicate 7 0)) 0
        (initStateKG ([], []))).train_x.length + 4 =
      (kgLoop (fun _ => 0) (fun _ => List.replicate 4 (List.replicate 7 0))
          (0 + 1) (initStateKG ([], []))).train_x.length :=
  c8_recommendation_uses_stale_model (fun _ => 0) _ _ 0 rfl

/-- The C3 claim formalized: the baseline phase repeats only workflow stages
3–7 (in particular it does not redo stage 2, the initial-data generation), and
its run configuration agrees with the MFKG run on every stage parameter except
the acquisition kind. -/
def BaselineOnlyChangesAcq : Prop :=
  eiPhaseRegeneratesData = false ∧ SameExceptAcq kgRunConfig eiRunConfig

/-- C3 counterexample: the baseline is not identical to the KG run with only
the acquisition swapped — concretely, under `SMOKE_TEST` the KG candidate
optimization uses `num_restarts = 2` while the EI baseline hardcodes 10, and
the baseline also reruns the initial-data generation (stage 2). -/
theorem c3_counterexample :
    kgRunConfig.candRestartsSmoke = 2 ∧ eiRunConfig.candRestartsSmoke = 10 ∧
    eiPhaseRegeneratesData = true ∧ ¬ BaselineOnlyChangesAcq := by
  refine ⟨rfl, rfl, rfl, fun h => ?_⟩
  have h2 := h.2.2.2.2.2.1
  norm_num [kgRunConfig, eiRunConfig] at h2

/-- C3 amended: the baseline repeats the loop and recommendation with the same
skeleton — the EI loop is exactly the KG loop run on the fixed-fidelity
completions of the design batches of the EI optimizer — and the same batch size,
full-size optimizer counts, recommendation parameters, and iteration counts;
but it additionally regenerates the initial data (stage 2), optimizes
candidates over the 6-dimensional design domain with the fidelity fixed to 1.0
instead of the mixed 7-dimensional domain over the three fidelities, does not
use the KG-specific initial conditions, and keeps full-size candidate
optimization counts (10 restarts, 512 raw samples) even under `SMOKE_TEST`. -/
theorem c3_amended :
    (∀ (problem : Point → ℚ) (designAt : ℕ → List (List ℚ))
        (s0 : EILoopState) (n : ℕ),
      toKG (eiLoop problem designAt n s0) =
        kgLoop problem (fun i => (designAt i).map constructXFull) n
          (toKG s0)) ∧
    kgRunConfig.q = eiRunConfig.q ∧
    kgRunConfig.candRestartsFull = eiRunConfig.candRestartsFull ∧
    kgRunConfig.candRawFull = eiRunConfig.candRawFull ∧
    kgRunConfig.recRestarts = eiRunConfig.recRestarts ∧
    kgRunConfig.recRaw = eiRunConfig.recRaw ∧
    kgRunConfig.nIterFull = eiRunConfig.nIterFull ∧
    kgRunConfig.nIterSmoke = eiRunConfig.nIterSmoke ∧
    kgRunConfig.usesKG = true ∧ eiRunConfig.usesKG = false ∧
    eiPhaseRegeneratesData = true ∧
    kgRunConfig.candDomainDim = 7 ∧ eiRunConfig.candDomainDim = 6 ∧
    kgRunConfig.candFixedFidelities = [1/2, 3/4, 1] ∧
    eiRunConfig.candFixedFidelities = [1] ∧
    kgRunConfig.usesKGInitConds = true ∧
    eiRunConfig.usesKGInitConds = false ∧
    kgRunConfig.candRestartsSmoke = 2 ∧
    eiRunConfig.candRestartsSmoke = 10 ∧
    kgRunConfig.candRawSmoke = 4 ∧ eiRunConfig.candRawSmoke = 512 :=
  ⟨fun problem designAt s0 n => toKG_eiLoop problem designAt s0 n,
    rfl, rfl, rfl, rfl, rfl, rfl, rfl, rfl, rfl, rfl, rfl, rfl, rfl, rfl,
    rfl, rfl, rfl, rfl, rfl, rfl⟩

/-- The C4 claim formalized: when `SMOKE_TEST` is set, every iteration count
and every sampling/optimization size parameter of the workflow is strictly
reduced relative to the unset case. -/
def SmokeReducesAll : Prop :=
  N_ITER true < N_ITER false ∧ num_fantasies true < num_fantasies false ∧
  ∀ c : CallSite, numRestartsOf true c < numRestartsOf false c ∧
    rawSamplesOf true c < rawSamplesOf false c

/-- C4 counterexample: the `gen_one_shot_kg_initial_conditions` call keeps its
full-size counts (`num_restarts=10, raw_samples=512`) under the flag, so not
every call has its counts reduced. -/
theorem c4_counterexample :
    numRestartsOf true CallSite.kgInitConditions = 10 ∧
    numRestartsOf false CallSite.kgInitConditions = 10 ∧
    rawSamplesOf true CallSite.kgInitConditions = 512 ∧
    rawSamplesOf false CallSite.kgInitConditions = 512 ∧
    ¬ SmokeReducesAll := by
  refine ⟨rfl, rfl, rfl, rfl, fun h => ?_⟩
  have h1 := (h.2.2 CallSite.kgInitConditions).1
  norm_num [numRestartsOf] at h1

/-- C4 amended: `SMOKE_TEST` reduces the iteration count, the fantasy count,
and the restart/raw-sample counts of the current-value optimization in `get_mfkg`
and of the `optimize_acqf_mixed` candidate optimization; but the calls to
`gen_one_shot_kg_initial_conditions`, to `optimize_acqf` inside
`get_recommendation`, and to `optimize_acqf` in the EI baseline keep their
full-size counts (10 restarts, 512 raw samples) under the flag. -/
theorem c4_amended :
    N_ITER true < N_ITER false ∧
    num_fantasies true < num_fantasies false ∧
    NUM_RESTARTS true < NUM_RESTARTS false ∧
    RAW_SAMPLES true < RAW_SAMPLES false ∧
    numRestartsOf true CallSite.mfkgCurrentValue <
      numRestartsOf false CallSite.mfkgCurrentValue ∧
    rawSamplesOf true CallSite.mfkgCurrentValue <
      rawSamplesOf false CallSite.mfkgCurrentValue ∧
    numRestartsOf true CallSite.mfkgCandidates <
      numRestartsOf false CallSite.mfkgCandidates ∧
    rawSamplesOf true CallSite.mfkgCandidates <
      rawSamplesOf false CallSite.mfkgCandidates ∧
    numRestartsOf true CallSite.kgInitConditions =
      numRestartsOf false CallSite.kgInitConditions ∧
    rawSamplesOf true CallSite.kgInitConditions =
      rawSamplesOf false CallSite.kgInitConditions ∧
    numRestartsOf true CallSite.recommendation =
      numRestartsOf false CallSite.recommendation ∧
    rawSamplesOf true CallSite.recommendation =
      rawSamplesOf false CallSite.recommendation ∧
    numRestartsOf true CallSite.eiCandidates =
      numRestartsOf false CallSite.eiCandidates ∧
    rawSamplesOf true CallSite.eiCandidates =
      rawSamplesOf false CallSite.eiCandidates := by
  decide

/-- C7: no notebook-level error handling — within one loop iteration, a
failure of any library call (model fitting, acquisition construction,
candidate optimization, objective evaluation) makes the iteration fail with
that same error, and a failed iteration makes the whole remaining loop fail
with that same error; nothing is caught, recovered or retried. -/
theorem c7_errors_propagate_unchanged (ε : Type) (e : ε)
    (fitRes acqRes : Except ε Unit) (optRes : Except ε (List Point))
    (evalF : Point → Except ε ℚ) (s : LoopState)
    (iter : ℕ → LoopState → Except ε LoopState) (n m : ℕ) :
    (fitRes = .error e →
      kgIterE ε fitRes acqRes optRes evalF s = .error e) ∧
    (fitRes = .ok () → acqRes = .error e →
      kgIterE ε fitRes acqRes optRes evalF s = .error e) ∧
    (fitRes = .ok () → acqRes = .ok () → optRes = .error e →
      kgIterE ε fitRes acqRes optRes evalF s = .error e) ∧
    (∀ cands, fitRes = .ok () → acqRes = .ok () → optRes = .ok cands →
      cands.mapM evalF = .error e →
      kgIterE ε fitRes acqRes optRes evalF s = .error e) ∧
    (kgLoopE ε iter n s = .error e →
      kgLoopE ε iter (n + m) s = .error e) := by
  refine ⟨?_, ?_, ?_, ?_, ?_⟩
  · rintro rfl; rfl
  · rintro rfl rfl; rfl
  · rintro rfl rfl rfl; rfl
  · rintro cands rfl rfl rfl h
    simp only [kgIterE, Except.bind]
    rw [h]
  · intro h
    induction m with
    | zero => simpa using h
    | succ m ih =>
        rw [← Nat.add_assoc]
        simp [kgLoopE, ih, Except.bind]

/-- Witness for C7: a concrete failing model-fitting call aborts a concrete
iteration with the same error. -/
theorem c7_witness :
    kgIterE ℕ (.error 7) (.ok ()) (.ok []) (fun _ => .ok 0)
      (initStateKG ([], [])) = .error 7 :=
  (c7_errors_propagate_unchanged ℕ 7 (.error 7) (.ok ()) (.ok [])
    (fun _ => .ok 0) (initStateKG ([], [])) (fun _ s => .ok s) 0 0).1 rfl

/-- C9: every EI baseline candidate gets its fidelity coordinate fixed to
exactly 1.0 by the fixed-feature completion, so each evaluation costs
`5.0 + 1.0 = 6.0` and the cumulative cost of the baseline loop is
deterministically `6.0 · 4 · n` — `72.0` at the non-smoke iteration count
`N_ITER = 3` — whatever the initial data and the optimizer outputs are. -/
theorem c9_ei_cost_deterministic (problem : Point → ℚ)
    (designAt : ℕ → List (List ℚ)) (s0 : EILoopState) (n : ℕ)
    (h0 : s0.cumulative_cost = 0)
    (hq : ∀ i < n, (designAt i).length = 4)
    (hd : ∀ i < n, ∀ d ∈ designAt i, d.length = 6) :
    (eiLoop problem designAt n s0).cumulative_cost = 6 * 4 * n ∧
    (∀ i < n, ∀ d ∈ designAt i, (constructXFull d).getD 6 0 = 1 ∧
      cost_model (constructXFull d) = 6) ∧
    6 * 4 * ((N_ITER false : ℕ) : ℚ) = 72 := by
  refine ⟨?_, ?_, by norm_num [N_ITER]⟩
  · rw [eiLoop_cumulative_cost, h0, zero_add]
    have hbatch : ∀ i ∈ List.range n,
        batchCost ((designAt i).map constructXFull) = 24 := by
      intro i hi
      rw [List.mem_range] at hi
      rw [batchCost, List.map_map]
      rw [sum_map_const_of (cost_model ∘ constructXFull) 6 (designAt i)
        (fun d hdm => cost_of_full_fidelity_candidate d (hd i hi d hdm))]
      rw [hq i hi]
      norm_num
    rw [sum_map_const_of _ 24 (List.range n) hbatch, List.length_range]
    ring
  · intro i hi d hdm
    have h6 := hd i hi d hdm
    refine ⟨?_, cost_of_full_fidelity_candidate d h6⟩
    rw [constructXFull, List.getD_append_right _ _ _ _ h6.le, h6]
    rfl

/-- Witness for C9: the full three-iteration baseline with concrete constant
optimizer outputs (4 zero design points per iteration). -/
theorem c9_witness :
    (eiLoop (fun _ => 0) (fun _ => List.replicate 4 (List.replicate 6 0)) 3
        (initStateEI ([], []))).cumulative_cost = 6 * 4 * (3 : ℕ) ∧
    (∀ i < 3, ∀ d ∈ List.replicate 4 (List.replicate 6 (0 : ℚ)),
      (constructXFull d).getD 6 0 = 1 ∧ cost_model (constructXFull d) = 6) ∧
    6 * 4 * ((N_ITER false : ℕ) : ℚ) = 72 :=
  c9_ei_cost_deterministic (fun _ => 0)
    (fun _ => List.replicate 4 (List.replicate 6 0)) (initStateEI ([], [])) 3
    rfl (fun _ _ => rfl)
    (by intro i _ d hdm; rw [List.eq_of_mem_replicate hdm]; rfl)

/-- C10: the incumbent `best_f` passed to the EI acquisition at iteration `i`
of the baseline is the maximum over all observations accumulated so far at all
fidelity levels (the trace entry equals `tensorMax` of the accumulated
observation tensor, with no fidelity filtering), and there is a run in which
this incumbent is an observation taken at fidelity 0.5 and differs from the
maximum over target-fidelity observations. -/
theorem c10_ei_incumbent_over_all_fidelities (problem : Point → ℚ)
    (designAt : ℕ → List (List ℚ)) (s0 : EILoopState) (n i : ℕ)
    (hb0 : s0.bestFs = []) (hi : i < n) :
    (eiLoop problem designAt n s0).bestFs.getD i 0 =
      tensorMax (eiLoop problem designAt i s0).train_obj ∧
    ∃ (prob : Point → ℚ) (designs : List (List ℚ)) (fids : List (Fin 3)),
      (eiLoop prob (fun _ => []) 1
          (initStateEI (generate_initial_data designs fids prob))).bestFs.getD
            0 0 ≠
        tensorMaxAtTarget (generate_initial_data designs fids prob).1
          (generate_initial_data designs fids prob).2 ∧
      ((generate_initial_data designs fids prob).1.getD 0 []).getD 6 0 =
        1/2 ∧
      (eiLoop prob (fun _ => []) 1
          (initStateEI (generate_initial_data designs fids prob))).bestFs.getD
            0 0 =
        ((generate_initial_data designs fids prob).2.getD 0 []).getD 0 0 := by
  refine ⟨eiLoop_bestFs_getD problem designAt s0 hb0 n i hi, ?_⟩
  refine ⟨fun x => 7 - x.getD 6 0,
    [[0, 0, 0, 0, 0, 0], [0, 0, 0, 0, 0, 0]], [0, 2], ?_, ?_, ?_⟩
  · have hz : (generate_initial_data
        [[0, 0, 0, 0, 0, 0], [0, 0, 0, 0, 0, 0]] [0, 2]
        (fun x => 7 - x.getD 6 0)).1.zip
          (generate_initial_data [[0, 0, 0, 0, 0, 0], [0, 0, 0, 0, 0, 0]]
            [0, 2] (fun x => 7 - x.getD 6 0)).2 =
        [([0, 0, 0, 0, 0, 0, 1/2], [7 - (1/2 : ℚ)]),
         ([0, 0, 0, 0, 0, 0, 1], [7 - (1 : ℚ)])] := rfl
    have hL : (eiLoop (fun x => 7 - x.getD 6 0) (fun _ => []) 1
        (initStateEI (generate_initial_data
          [[0, 0, 0, 0, 0, 0], [0, 0, 0, 0, 0, 0]] [0, 2]
          (fun x => 7 - x.getD 6 0)))).bestFs.getD 0 0 =
        listMax [7 - (1/2 : ℚ), 7 - 1] := rfl
    have hR : tensorMaxAtTarget
        (generate_initial_data [[0, 0, 0, 0, 0, 0], [0, 0, 0, 0, 0, 0]]
          [0, 2] (fun x => 7 - x.getD 6 0)).1
        (generate_initial_data [[0, 0, 0, 0, 0, 0], [0, 0, 0, 0, 0, 0]]
          [0, 2] (fun x => 7 - x.getD 6 0)).2 = listMax [7 - (1 : ℚ)] := by
      rw [tensorMaxAtTarget, hz]
      simp only [rowsAtTarget, List.getD_cons_succ, List.getD_cons_zero]
      rw [if_neg (by norm_num)]
      simp only [if_true]
    rw [hL, hR]
    simp only [listMax, List.foldl]
    rw [max_eq_left (by norm_num)]
    norm_num
  · rfl
  · have hM : listMax [7 - (1/2 : ℚ), 7 - 1] = 7 - 1/2 := by
      simp only [listMax, List.foldl]
      rw [max_eq_left (by norm_num)]
    exact hM

/-- Witness for C10: the trace equality at the first iteration of a concrete
one-iteration run with empty optimizer batches. -/
theorem c10_witness :
    (eiLoop (fun _ => 0) (fun _ => []) 1 (initStateEI ([], []))).bestFs.getD
        0 0 =
      tensorMax (eiLoop (fun _ => 0) (fun _ => []) 0
        (initStateEI ([], []))).train_obj ∧
    ∃ (prob : Point → ℚ) (designs : List (List ℚ)) (fids : List (Fin 3)),
      (eiLoop prob (fun _ => []) 1
          (initStateEI (generate_initial_data designs fids prob))).bestFs.getD
            0 0 ≠
        tensorMaxAtTarget (generate_initial_data designs fids prob).1
          (generate_initial_data designs fids prob).2 ∧
      ((generate_initial_data designs fids prob).1.getD 0 []).getD 6 0 =
        1/2 ∧
      (eiLoop prob (fun _ => []) 1
          (initStateEI (generate_initial_data designs fids prob))).bestFs.getD
            0 0 =
        ((generate_initial_data designs fids prob).2.getD 0 []).getD 0 0 :=
  c10_ei_incumbent_over_all_fidelities (fun _ => 0) (fun _ => [])
    (initStateEI ([], [])) 1 0 rfl (by norm_num)

end DiscreteMFBO
